import Mathlib

/-!
Shallow embedding of the submission evaluation and scoring engine of the
ctf_be backend (Python/Django), covering:

* `src/submissions/llm.py` — the AI grading client (`ScoreAnalyser`,
  `_clamp_score`, `call_coach_llm`);
* `src/submissions/serializers.py` — `ChallengeSubmissionSerializer` and
  `GroupChallengeSubmissionSerializer` (status resolution, flag checking,
  contest resolution, the `create` write paths, group validation);
* `src/submissions/views.py` — `ChallengeSubmissionViewSet.create` dispatch
  and `LeaderboardViewSet` (`list`, `_build_rows`, `_best_scores`).

Database state (solution rows, linked contests, submission rows) is passed
explicitly as lists; the external LLM provider is modelled as a schedule of
per-attempt outcomes.  Python exceptions that escape a function are modelled
with `Except`; machine integers are `Int` (Python ints are unbounded).
-/

namespace CtfBe

/-- ASCII whitespace as Python's `str.strip()` removes it. -/
def pySpace (c : Char) : Bool :=
  c = ' ' ∨ c = '\t' ∨ c = '\n' ∨ c = '\r' ∨ c = '\x0b' ∨ c = '\x0c'

/-- Python `s.strip()`: drop leading and trailing whitespace.  Implemented
structurally over the character list so that concrete instances reduce. -/
def pyStrip (s : String) : String :=
  ⟨((s.data.dropWhile pySpace).reverse.dropWhile pySpace).reverse⟩

/-- Python `s.rstrip()`: drop trailing whitespace. -/
def pyRStrip (s : String) : String :=
  ⟨(s.data.reverse.dropWhile pySpace).reverse⟩

/-- Python `s.lower()` (ASCII). -/
def pyLower (s : String) : String :=
  ⟨s.data.map Char.toLower⟩

/-- Python `s[:n]`. -/
def pyTake (s : String) (n : Nat) : String :=
  ⟨s.data.take n⟩

/-- A Python value as it may appear in a JSON object produced by
`safe_extract_json_from_text` (`src/submissions/utils.py`): an int, a
string, or `None`/absent.  Only the conversions the grading client performs
(`int(...)` and truthiness) are needed. -/
inductive PyVal where
  | vint (i : Int)
  | vstr (s : String)
  | vnone
deriving DecidableEq, Repr

/-- Python `int(x)` semantics restricted to `PyVal`: an int converts to
itself, a string converts when it is a decimal literal, `None` fails.
`none` models the conversion raising (`ValueError`/`TypeError`). -/
def pyInt : PyVal → Option Int
  | .vint i => some i
  | .vstr s => s.toInt?
  | .vnone => none

/-- `src/submissions/llm.py` lines 25–30: `@dataclass class ScoreAnalyser`
with four fields `reply`, `score`, `max_score`, `status`, none of which has
a default value, so every constructor call must supply all four. -/
structure ScoreAnalyser where
  reply : String
  score : Int
  max_score : Int
  status : String
deriving DecidableEq, Repr

/-- A Python exception value escaping a call. -/
inductive PyError where
  | typeError (msg : String)
deriving DecidableEq, Repr

/-- The exception raised by `ScoreAnalyser(reply=…, score=…, max_score=…)`
when the required keyword argument `status` is omitted (dataclass
`__init__` with no default for `status`). -/
def missingStatusError : PyError :=
  .typeError "ScoreAnalyser.__init__ missing 1 required positional argument: status"

/-- `src/submissions/llm.py` lines 130–139, `_clamp_score(score, max_score)`:
`int(score)` with exceptions mapped to 0, then clamp below at 0 and above
at `max_score`. -/
def _clamp_score (score : PyVal) (max_score : Int) : Int :=
  let s := (pyInt score).getD 0
  if s < 0 then 0
  else if s > max_score then max_score
  else s

/-- The JSON object extracted from one model output, as the grading client
reads it: `obj.get("reply")`, `obj.get("score")`, `obj.get("status")`
(lines 188–190 of `llm.py`).  `reply`/`status` are modelled as the string
the subsequent `str(… or "")` produces when present. -/
structure ParsedGrade where
  reply : Option String
  score : PyVal
  status : Option String
deriving DecidableEq, Repr

/-- Outcome of one `client.generate_text(messages)` attempt inside
`call_coach_llm`, combined with the result of
`safe_extract_json_from_text` on its raw text:
* `ok none` — the call returned but the text did not parse to a dict;
* `ok (some p)` — the call returned and parsed to the dict `p`;
* `transientErr code` — the call raised `LLMTransientError(code=…)`;
* `otherErr` — the call raised some other exception. -/
inductive GenAttempt where
  | ok (parsed : Option ParsedGrade)
  | transientErr (code : String)
  | otherErr
deriving DecidableEq, Repr

/-- `src/submissions/llm.py` line 186: the well-formed result returned when
the model output fails to parse as a dict. -/
def parseFailAnalyser (ms : Int) : ScoreAnalyser :=
  ⟨"I couldn’t format the evaluation properly. Please try again.", 0, ms, "pending"⟩

/-- `src/submissions/llm.py` lines 188–199: build the returned
`ScoreAnalyser` from a parsed dict: default/trim the reply, clamp the
score, pass the status string through. -/
def gradeFromParsed (p : ParsedGrade) (ms : Int) : ScoreAnalyser :=
  let reply := pyStrip (p.reply.getD "")
  let score := _clamp_score p.score ms
  let status := pyStrip (p.status.getD "")
  let reply := if reply = "" then
      "Share more details about your approach (inputs, outputs, edge cases) and I’ll guide you."
    else reply
  let reply := if reply.length > 2000 then pyRStrip (pyTake reply 2000) ++ "…" else reply
  ⟨reply, score, ms, status⟩

/-- `src/submissions/llm.py` lines 211–215: the post-loop fallback.  Each
of the three branches (`rate_limited`, `timeout`, other) executes
`return ScoreAnalyser(reply=…, score=0, max_score=ms)` — with no `status`
argument.  Since the `ScoreAnalyser` dataclass has four required fields,
every one of these constructor calls raises `TypeError` instead of
returning, so the fallback is an escaping exception. -/
def llmFallback (_ms : Int) (lastErr : Option String) : Except PyError ScoreAnalyser :=
  match lastErr with
  | some "rate_limited" => .error missingStatusError
  | some "timeout" => .error missingStatusError
  | _ => .error missingStatusError

/-- The retry loop of `call_coach_llm` (lines 180–209):
`for attempt in range((LLM_MAX_RETRIES or 0) + 1)`.  `fuel` is the number
of attempts still allowed (initially `retries + 1`), `i` the 0-based
attempt index fed to the outcome schedule `gen`, `lastErr` the running
`last_err`.  A parse-failure returns the pending analyser; a parsed dict
returns the graded analyser; `LLMTransientError` records its code
(`getattr(e, "code", None) or "transient"`) and retries while attempts
remain, else breaks to the fallback; any other exception sets
`last_err = "unknown"` and breaks to the fallback. -/
def llmLoop (ms : Int) (gen : Nat → GenAttempt) : Nat → Nat → Option String →
    Except PyError ScoreAnalyser
  | _, 0, lastErr => llmFallback ms lastErr
  | i, fuel + 1, lastErr =>
    match gen i with
    | .ok none => .ok (parseFailAnalyser ms)
    | .ok (some p) => .ok (gradeFromParsed p ms)
    | .transientErr code =>
        let codeOr := if code = "" then "transient" else code
        llmLoop ms gen (i + 1) fuel (some codeOr)
    | .otherErr =>
        let _ := lastErr
        llmFallback ms (some "unknown")

/-- `src/submissions/llm.py` lines 142–215, `call_coach_llm`: strip the
user solution (line 157); an empty solution takes the early return at line
159, which constructs `ScoreAnalyser(reply=…, score=0, max_score=0)`
without `status` and therefore raises `TypeError`; otherwise coerce
`max_score` to a non-negative int `ms` (lines 163–168), then run the retry
loop with `retries + 1` allowed attempts.  The `user_solution[:8000]`
truncation and message building do not affect the returned value beyond
the text fed to the provider and are not modelled. -/
def call_coach_llm (user_solution : String) (max_score : Int) (retries : Nat)
    (gen : Nat → GenAttempt) : Except PyError ScoreAnalyser :=
  let us := pyStrip user_solution
  if us = "" then .error missingStatusError
  else
    let ms := if max_score < 0 then 0 else max_score
    llmLoop ms gen 0 (retries + 1) none

/-- The value `ChallengeSubmissionSerializer._get_status_for_result`
receives: either a Python `bool` (the flag path passes
`is_correct : bool`) or `getattr(score_analyser, "status", None)` from the
procedure path — a status string, or `None` when the grading client call
raised. -/
inductive StatusArg where
  | ofBool (b : Bool)
  | ofStr (s : String)
  | noneV
deriving DecidableEq, Repr

/-- Python truthiness of a `StatusArg`: a bool is itself, a string is
truthy iff non-empty, `None` is falsy. -/
def statusArgTruthy : StatusArg → Bool
  | .ofBool b => b
  | .ofStr s => s ≠ ""
  | .noneV => false

/-- Python `is_correct == "incorrect"`: equality of the argument with the
string `"incorrect"`.  A bool or `None` never equals a string in Python. -/
def statusArgEqIncorrect : StatusArg → Bool
  | .ofStr s => s = "incorrect"
  | _ => false

/-- `src/submissions/serializers.py` lines 339–348
(`ChallengeSubmissionSerializer._get_status_for_result`) and the identical
lines 534–543 (`GroupChallengeSubmissionSerializer._get_status_for_result`):

    if is_correct:             status_value = "correct"
    elif is_correct == "incorrect": status_value = "incorrect"
    else:                      status_value = "pending"

returning the `SubmissionStatus` row of that name (DB lookup not modelled;
the status string is returned directly). -/
def _get_status_for_result (is_correct : StatusArg) : String :=
  if statusArgTruthy is_correct then "correct"
  else if statusArgEqIncorrect is_correct then "incorrect"
  else "pending"

/-- A contest row as the submission engine reads it.  `start_time` and
`end_time` are `DateTimeField`s, modelled as integers; `id` is the primary
key.  `is_active` is declared in `src/challenges/models.py`;
`publish_result` and `group_only` are Contest columns read by
`src/submissions/views.py` (line 205) and
`src/submissions/serializers.py` (line 504) whose model declaration is not
part of the snapshot — they are plain boolean columns, modelled as such. -/
structure ContestRec where
  id : Nat
  is_active : Bool
  start_time : Int
  end_time : Int
  publish_result : Bool
  group_only : Bool
deriving DecidableEq, Repr

/-- `src/submissions/serializers.py` lines 350–375
(`ChallengeSubmissionSerializer._get_contest_for_challenge`) and the
identical lines 545–563 of `GroupChallengeSubmissionSerializer`:
a non-competition challenge resolves to no contest; a competition
challenge must be linked to exactly one contest (0 or ≥2 raise
`PermissionDenied`), which must be active and within its time window.
`linked` is `Contest.objects.filter(challenges=challenge)` and `now` is
`timezone.now()`; `.error` models the raised `PermissionDenied`. -/
def _get_contest_for_challenge (question_type : String) (linked : List ContestRec)
    (now : Int) : Except String (Option ContestRec) :=
  if question_type ≠ "competition" then .ok none
  else
    match linked with
    | [] => .error "Competition challenge is not linked to any contest."
    | [c] =>
        if ¬ c.is_active then .error "Contest is not active."
        else if ¬ (c.start_time ≤ now ∧ now ≤ c.end_time) then
          .error "Contest is not accepting submissions at this time."
        else .ok (some c)
    | _ => .error "Challenge is linked to multiple contests. Fix data integrity."

/-- `src/submissions/serializers.py` lines 377–379
(`_check_flag_correct`, same body in both serializer classes): strip the
value and test `FlagSolution.objects.filter(challenges=challenge,
value=normalized).exists()`.  `flags` is the list of `FlagSolution.value`
strings linked to the challenge. -/
def _check_flag_correct (flags : List String) (value : String) : Bool :=
  flags.contains (pyStrip value)

/-- One submission row as written by the `create` methods: the status
string of the `SubmissionStatus` row attached, the score recorded
(`user_score` or `group_score`), and the stored payload. -/
structure WrittenRow where
  kind : String
  status : String
  score : Int
  payload : String
deriving DecidableEq, Repr

/-- `src/submissions/serializers.py` lines 402–425: the FLAG branch of
`ChallengeSubmissionSerializer.create`.  `value` is stripped, checked
against the flag solutions, the status resolved through
`_get_status_for_result(is_correct : bool)`, and the score set to
`challenge.challenge_score.flag_score` — replaced by 1 when that value is
falsy (`None` or 0) — if correct, else 0.  `flagScore` is the
`flag_score` column (`none` for SQL NULL). -/
def userFlagRow (flags : List String) (flagScore : Option Int) (raw : String) : WrittenRow :=
  let value := pyStrip raw
  let is_correct := _check_flag_correct flags value
  let status := _get_status_for_result (.ofBool is_correct)
  let flag_score := match flagScore with
    | none => 1
    | some n => if n = 0 then 1 else n
  let user_score := if is_correct then flag_score else 0
  ⟨"flag", status, user_score, value⟩

/-- `src/submissions/serializers.py` lines 594–610: the FLAG branch of
`GroupChallengeSubmissionSerializer.create`.  Unlike the user branch, the
score base is `getattr(challenge.challenge_score, "flag_score", 0) or 0`
— a missing or falsy `flag_score` becomes 0, not 1 — and
`group_score = int(flag_score) if is_correct else 0`. -/
def groupFlagRow (flags : List String) (flagScore : Option Int) (raw : String) : WrittenRow :=
  let value := pyStrip raw
  let is_correct := _check_flag_correct flags value
  let status := _get_status_for_result (.ofBool is_correct)
  let flag_score := flagScore.getD 0
  let group_score := if is_correct then flag_score else 0
  ⟨"flag", status, group_score, value⟩

/-- `src/submissions/serializers.py` lines 428–482: the PROCEDURE branch of
`ChallengeSubmissionSerializer.create`.  `textSolution` is
`SolutionUtils.get_text_solution_for_challenge(challenge)["value"]` (the
first linked `TextSolution.content`, or `None` when there is none);
`procedureScore` is `challenge.challenge_score.procedure_score` with falsy
values replaced by 1.  The grading client is called only when a canonical
text solution exists and `content` is truthy, wrapped in `try/except` so a
raising call leaves `score_analyser = None`.  The recorded score is
`getattr(score_analyser, "score", None)` defaulted to 0 and the recorded
status is `_get_status_for_result(getattr(score_analyser, "status",
None))`. -/
def userProcedureRow (textSolution : Option String) (procedureScore : Option Int)
    (content : String) (retries : Nat) (gen : Nat → GenAttempt) : WrittenRow :=
  let procedure_score := match procedureScore with
    | none => 1
    | some n => if n = 0 then 1 else n
  let score_analyser : Option ScoreAnalyser :=
    match textSolution with
    | none => none
    | some _ =>
        if content ≠ "" then (call_coach_llm content procedure_score retries gen).toOption
        else none
  let user_score := (score_analyser.map (·.score)).getD 0
  let statusArg : StatusArg := match score_analyser with
    | none => .noneV
    | some a => .ofStr a.status
  ⟨"procedure", _get_status_for_result statusArg, user_score, content⟩

/-- `src/submissions/serializers.py` lines 621–669: the PROCEDURE branch of
`GroupChallengeSubmissionSerializer.create`; same structure as the user
branch except the score base is `getattr(…, "procedure_score", 0) or 0`
(default 0, not 1). -/
def groupProcedureRow (textSolution : Option String) (procedureScore : Option Int)
    (content : String) (retries : Nat) (gen : Nat → GenAttempt) : WrittenRow :=
  let procedure_score := procedureScore.getD 0
  let score_analyser : Option ScoreAnalyser :=
    match textSolution with
    | none => none
    | some _ =>
        if content ≠ "" then (call_coach_llm content procedure_score retries gen).toOption
        else none
  let group_score := (score_analyser.map (·.score)).getD 0
  let statusArg : StatusArg := match score_analyser with
    | none => .noneV
    | some a => .ofStr a.status
  ⟨"procedure", _get_status_for_result statusArg, group_score, content⟩

/-- The per-challenge data the `create` methods read from the database. -/
structure ChallengeData where
  question_type : String
  linkedContests : List ContestRec
  flags : List String
  textSolution : Option String
  flagScore : Option Int
  procedureScore : Option Int
deriving Repr

/-- `src/submissions/serializers.py` lines 385–484,
`ChallengeSubmissionSerializer.create` (decorated `@transaction.atomic`):
resolve the contest first — a `PermissionDenied` there aborts the request
before any `objects.create` call, so `.error` carries zero written rows —
then write one row per submitted kind.  `value`/`content` are the
validated payload fields (`none` when absent). -/
def challenge_submission_create (ch : ChallengeData) (now : Int)
    (value content : Option String) (retries : Nat) (gen : Nat → GenAttempt) :
    Except String (List WrittenRow) :=
  match _get_contest_for_challenge ch.question_type ch.linkedContests now with
  | .error e => .error e
  | .ok _ =>
      let flagRows := match value with
        | none => []
        | some v => [userFlagRow ch.flags ch.flagScore v]
      let procRows := match content with
        | none => []
        | some c => [userProcedureRow ch.textSolution ch.procedureScore c retries gen]
      .ok (flagRows ++ procRows)

/-- `src/submissions/serializers.py` lines 573–671,
`GroupChallengeSubmissionSerializer.create` (also `@transaction.atomic`):
identical contest resolution before any write, then group rows. -/
def group_challenge_submission_create (ch : ChallengeData) (now : Int)
    (value content : Option String) (retries : Nat) (gen : Nat → GenAttempt) :
    Except String (List WrittenRow) :=
  match _get_contest_for_challenge ch.question_type ch.linkedContests now with
  | .error e => .error e
  | .ok _ =>
      let flagRows := match value with
        | none => []
        | some v => [groupFlagRow ch.flags ch.flagScore v]
      let procRows := match content with
        | none => []
        | some c => [groupProcedureRow ch.textSolution ch.procedureScore c retries gen]
      .ok (flagRows ++ procRows)

/-- The challenge attributes the validation layer reads. -/
structure ChallengeInfo where
  group_only : Bool
  sol_label : String
  contests : List ContestRec
deriving Repr

/-- The allowed-kinds set computed by both `validate` methods from
`solution_type.type` (stripped, lowercased): `"flag"`, `"procedure"`, or
`"flag and procedure"`; anything else is the empty set (denied). -/
def allowedKinds (sol_label : String) : List String :=
  let sol := pyLower (pyStrip sol_label)
  if sol = "flag" then ["flag"]
  else if sol = "procedure" then ["procedure"]
  else if sol = "flag and procedure" then ["flag", "procedure"]
  else []

/-- `src/submissions/serializers.py` lines 303–337,
`ChallengeSubmissionSerializer.validate` (authentication assumed): at
least one of `value`/`content` must be truthy; the solution-type label
must be known; each supplied kind must be allowed.  `.error` models the
raised `ValidationError`/`PermissionDenied`. -/
def challenge_submission_validate (ch : ChallengeInfo) (value content : Option String) :
    Except String Unit :=
  if value.getD "" = "" ∧ content.getD "" = "" then
    .error "Provide at least one of: value or content."
  else
    let allowed := allowedKinds ch.sol_label
    if allowed = [] then
      .error "Challenge solution_type.type must be one of: flag, text, both."
    else if value.getD "" ≠ "" ∧ ¬ allowed.contains "flag" then
      .error "This challenge does not accept flag submissions."
    else if content.getD "" ≠ "" ∧ ¬ allowed.contains "procedure" then
      .error "This challenge does not accept procedure submissions."
    else .ok ()

/-- `src/submissions/serializers.py` lines 491–532,
`GroupChallengeSubmissionSerializer.validate` (authentication assumed), in
source order: payload presence; the challenge must be linked to at least
one contest with `group_only=True`
(`challenge.contests.filter(group_only=True).exists()`, line 504); the
user must have a group membership with a group id (`membership` is
`some gid`, with `gid ≠ 0` for Python truthiness of `group_id`); then the
same solution-type gating as the user serializer. -/
def group_challenge_submission_validate (ch : ChallengeInfo) (membership : Option Nat)
    (value content : Option String) : Except String Unit :=
  if value.getD "" = "" ∧ content.getD "" = "" then
    .error "Provide at least one of: value or content."
  else if ¬ ch.contests.any (·.group_only) then
    .error "This challenge is not a group-only challenge."
  else
    match membership with
    | none => .error "You must join a group to submit this challenge."
    | some gid =>
        if gid = 0 then .error "You must join a group to submit this challenge."
        else
          let allowed := allowedKinds ch.sol_label
          if allowed = [] then
            .error "Challenge solution_type.type must be one of: flag, procedure, both."
          else if value.getD "" ≠ "" ∧ ¬ allowed.contains "flag" then
            .error "This challenge does not accept flag submissions."
          else if content.getD "" ≠ "" ∧ ¬ allowed.contains "procedure" then
            .error "This challenge does not accept procedure submissions."
          else .ok ()

/-- `src/submissions/views.py` lines 165–181,
`ChallengeSubmissionViewSet.create`: pick
`GroupChallengeSubmissionSerializer` when `challenge.group_only` else
`ChallengeSubmissionSerializer`, then run its `validate`. -/
def submission_endpoint_validate (ch : ChallengeInfo) (membership : Option Nat)
    (value content : Option String) : Except String Unit :=
  if ch.group_only then group_challenge_submission_validate ch membership value content
  else challenge_submission_validate ch value content

/-- One stored user submission as the leaderboard reads it: owner,
challenge, recorded score, attached status string, the challenge's
`question_type`, and the contest id (`none` for practice). -/
structure LBSubRow where
  user_id : Nat
  challenge_id : Nat
  user_score : Int
  status : String
  question_type : String
  contest : Option Nat
deriving DecidableEq, Repr

/-- `src/submissions/views.py` lines 233–240, the `solved_filter` applied
to both submission tables: `challenge__question_type = lb_type`,
`status__status__iexact = "solved"` (case-insensitive match against the
literal `"solved"`), and `contest__isnull=True` for practice or
`contest = contest` for competition. -/
def leaderboard_scope_filter (lb_type : String) (contest : Option Nat) (r : LBSubRow) : Bool :=
  r.question_type = lb_type ∧ pyLower r.status = "solved" ∧
    (if lb_type = "practice" then r.contest = none else r.contest = contest)

/-- The SQL `Max` aggregate over a group's scores (the group is non-empty
whenever it arises from `values(…).annotate(Max(…))`). -/
def maxAggregate : List Int → Int
  | [] => 0
  | s :: rest => rest.foldl max s

/-- `src/submissions/views.py` lines 273–274, `_best_scores`:
`qs.values("user_id", "challenge_id").annotate(best_score=Max("user_score"))`
— one `(user_id, challenge_id, max score)` triple per distinct pair. -/
def _best_scores (qs : List LBSubRow) : List (Nat × Nat × Int) :=
  ((qs.map fun r => (r.user_id, r.challenge_id)).dedup).map fun k =>
    (k.1, k.2,
      maxAggregate ((qs.filter fun r => r.user_id = k.1 ∧ r.challenge_id = k.2).map (·.user_score)))

/-- One step of the `best` defaultdict update in `_build_rows` lines
247–254: `prev = best[uid].get(ch_id); if prev is None or score > prev:
best[uid][ch_id] = score`, replayed over an association list keyed by
`(user_id, challenge_id)`. -/
def updateBest (acc : List ((Nat × Nat) × Int)) (row : Nat × Nat × Int) :
    List ((Nat × Nat) × Int) :=
  let key := (row.1, row.2.1)
  let score := row.2.2
  match acc.lookup key with
  | none => acc ++ [(key, score)]
  | some prev =>
      if score > prev then acc.map (fun p => if p.1 = key then (key, score) else p)
      else acc

/-- `totals = {uid: sum(scores.values()) for uid, scores in best.items()}`
(line 256): per user, the sum of the per-challenge best scores. -/
def lbTotals (best : List ((Nat × Nat) × Int)) : List (Nat × Int) :=
  ((best.map fun p => p.1.1).dedup).map fun u =>
    (u, ((best.filter fun p => p.1.1 = u).map (·.2)).foldl (· + ·) 0)

/-- `src/submissions/views.py` lines 232–256, `_build_rows` up to the
`totals` dict: filter both tables with `solved_filter`, aggregate each
with `_best_scores`, fold `flag_rows + text_rows` through the `best`
update, and sum per user.  The username join, rank assignment and search
filter downstream of `totals` only reorder/decorate these pairs and are
not needed by the claims. -/
def _build_rows_totals (lb_type : String) (contest : Option Nat)
    (flagSubs textSubs : List LBSubRow) : List (Nat × Int) :=
  let flag_rows := _best_scores (flagSubs.filter (leaderboard_scope_filter lb_type contest))
  let text_rows := _best_scores (textSubs.filter (leaderboard_scope_filter lb_type contest))
  lbTotals ((flag_rows ++ text_rows).foldl updateBest [])

/-- A leaderboard HTTP outcome: `self._error(msg, code)` or a 200 payload
whose `results` come from `_build_rows`. -/
inductive LBResponse where
  | err (msg : String) (code : Nat)
  | ok (totals : List (Nat × Int))
deriving DecidableEq, Repr

/-- `src/submissions/views.py` lines 188–224, `LeaderboardViewSet.list`:
normalize `mode` (`or "practice"`, strip, lower) and `contest_id`
(strip); reject unknown modes with 400; in competition mode require a
contest id (400), an existing contest (`contestLookup` is the result of
`Contest.objects.filter(id=contest_id).first()`; `none` gives 404), and
`publish_result` (403 otherwise); then answer 200 with the built rows. -/
def leaderboard_list (mode contest_id : String) (contestLookup : Option ContestRec)
    (flagSubs textSubs : List LBSubRow) : LBResponse :=
  let lb_type := pyLower (pyStrip (if mode = "" then "practice" else mode))
  let cid := pyStrip contest_id
  if lb_type ≠ "practice" ∧ lb_type ≠ "competition" then
    .err "type must be practice or competition" 400
  else if lb_type = "competition" then
    if cid = "" then .err "No contest selected." 400
    else
      match contestLookup with
      | none => .err "Contest not found." 404
      | some c =>
          if ¬ c.publish_result then
            .err "Results for this contest are not published yet." 403
          else .ok (_build_rows_totals lb_type (some c.id) flagSubs textSubs)
  else .ok (_build_rows_totals lb_type none flagSubs textSubs)

/-! ### Concrete fixtures used by witnesses and counterexamples -/

/-- A provider schedule whose model output reports an absurdly large score. -/
def advHighGen : Nat → GenAttempt :=
  fun _ => .ok (some ⟨some "ok", .vint 99999, some "correct"⟩)

/-- The analyser `call_coach_llm` returns for `advHighGen` at max_score 10. -/
def advHighAnalyser : ScoreAnalyser := ⟨"ok", 10, 10, "correct"⟩

/-- A provider schedule that always raises a non-transient exception. -/
def fatalGen : Nat → GenAttempt := fun _ => .otherErr

/-- A provider schedule that always times out (transient). -/
def timeoutGen : Nat → GenAttempt := fun _ => .transientErr "timeout"

/-- A provider schedule whose output never parses as a JSON dict. -/
def unparsableGen : Nat → GenAttempt := fun _ => .ok none

/-- A competition challenge linked to zero contests. -/
def orphanCompetitionChallenge : ChallengeData :=
  ⟨"competition", [], ["FLAG{x}"], none, some 5, none⟩

/-- Three practice flag submissions by user 1 on challenge 1 scoring 3, 7, 2,
all recorded with status `"correct"` (the status the submission endpoint
writes for a matching flag). -/
def correctStatusRows : List LBSubRow :=
  [⟨1, 1, 3, "correct", "practice", none⟩,
   ⟨1, 1, 7, "correct", "practice", none⟩,
   ⟨1, 1, 2, "correct", "practice", none⟩]

/-- The same three submissions carrying status `"solved"` — the string the
leaderboard filter actually matches. -/
def solvedStatusRows : List LBSubRow :=
  [⟨1, 1, 3, "solved", "practice", none⟩,
   ⟨1, 1, 7, "solved", "practice", none⟩,
   ⟨1, 1, 2, "solved", "practice", none⟩]

/-- An existing contest whose results are not published. -/
def unpublishedContest : ContestRec := ⟨5, true, 0, 10, false, false⟩

/-- A group-only flag challenge linked to one contest that is not
group-only. -/
def groupOnlyChallengeNoGroupContest : ChallengeInfo :=
  ⟨true, "flag", [⟨1, true, 0, 10, true, false⟩]⟩

/-! ### Shared lemmas -/

/-- Every branch of the post-loop fallback raises the same `TypeError`. -/
theorem llmFallback_eq (ms : Int) (lastErr : Option String) :
    llmFallback ms lastErr = .error missingStatusError := by
  unfold llmFallback
  split <;> rfl

/-- Zeta-expanded form of `_clamp_score`. -/
theorem _clamp_score_eq (v : PyVal) (m : Int) :
    _clamp_score v m =
      if (pyInt v).getD 0 < 0 then 0
      else if (pyInt v).getD 0 > m then m
      else (pyInt v).getD 0 := rfl

/-- `_clamp_score` lands in `[0, max_score]` whenever `max_score ≥ 0`. -/
theorem _clamp_score_bounds (v : PyVal) (m : Int) (hm : 0 ≤ m) :
    0 ≤ _clamp_score v m ∧ _clamp_score v m ≤ m := by
  rw [_clamp_score_eq]
  split
  · omega
  · split <;> omega

/-- The score field of a graded analyser is exactly the clamped score. -/
theorem gradeFromParsed_score (p : ParsedGrade) (ms : Int) :
    (gradeFromParsed p ms).score = _clamp_score p.score ms := by
  simp [gradeFromParsed]

/-- Any analyser the retry loop actually returns carries a score in
`[0, ms]`, provided `ms ≥ 0`. -/
theorem llmLoop_ok_bounds (ms : Int) (gen : Nat → GenAttempt) (hms : 0 ≤ ms) :
    ∀ fuel i lastErr r, llmLoop ms gen i fuel lastErr = Except.ok r →
      0 ≤ r.score ∧ r.score ≤ ms := by
  intro fuel
  induction fuel with
  | zero =>
    intro i lastErr r h
    rw [llmLoop, llmFallback_eq] at h
    exact absurd h (by simp)
  | succ n ih =>
    intro i lastErr r h
    rw [llmLoop] at h
    cases hg : gen i with
    | ok parsed =>
      rw [hg] at h
      cases parsed with
      | none =>
        simp only [Except.ok.injEq] at h
        subst h
        exact ⟨le_refl _, hms⟩
      | some p =>
        simp only [Except.ok.injEq] at h
        subst h
        rw [gradeFromParsed_score]
        exact _clamp_score_bounds p.score ms hms
    | transientErr code =>
      rw [hg] at h
      exact ih (i + 1) _ r h
    | otherErr =>
      rw [hg] at h
      simp only [llmFallback_eq] at h
      exact absurd h (by simp)

/-- C1: The claim says the grading client, on retry exhaustion or a
non-transient failure, returns a well-formed fallback result
(status pending, score 0) and never raises.  On the code it is false:
`ScoreAnalyser` has four required fields and every fallback construction
(lines 159, 212, 214, 215 of `llm.py`) omits `status`, so those paths
raise `TypeError` instead of returning.  This theorem evaluates the client
at a non-transient failure, at exhausted timeout retries, and at the
empty-solution early return: each raises. -/
theorem C1_fallback_raises_type_error :
    call_coach_llm "attempt" 10 2 fatalGen = .error missingStatusError
    ∧ call_coach_llm "attempt" 10 2 timeoutGen = .error missingStatusError
    ∧ call_coach_llm "" 10 2 unparsableGen = .error missingStatusError :=
  ⟨rfl, rfl, rfl⟩

/-- C6: any analyser the grading client returns — for any model output,
including adversarial scores — carries an integer score within
`[0, max_score]`, for any non-negative configured `max_score`. -/
theorem C6_returned_score_in_range (us : String) (max_score : Int) (retries : Nat)
    (gen : Nat → GenAttempt) (h : 0 ≤ max_score) (r : ScoreAnalyser)
    (hr : call_coach_llm us max_score retries gen = .ok r) :
    0 ≤ r.score ∧ r.score ≤ max_score := by
  unfold call_coach_llm at hr
  by_cases he : pyStrip us = ""
  · simp [he] at hr
  · rw [if_neg he, if_neg (not_lt.mpr h)] at hr
    exact llmLoop_ok_bounds max_score gen h (retries + 1) 0 none r hr

/-- C6 witness: at `max_score = 10` and a model output reporting score
99999, the returned score is clamped into `[0, 10]`. -/
theorem C6_returned_score_in_range_witness :
    0 ≤ (10 : Int) ∧ (0 ≤ advHighAnalyser.score ∧ advHighAnalyser.score ≤ 10) :=
  ⟨by decide, C6_returned_score_in_range "adv" 10 2 advHighGen (by decide) advHighAnalyser rfl⟩

/-- C9: the status-resolution helper of the submission serializers maps
every non-empty status string (including `"incorrect"`) to `"correct"`,
maps the empty string and a missing status to `"pending"`, and can never
produce `"incorrect"` for any input, because its equality branch is only
reachable for falsy inputs. -/
theorem C9_status_helper_never_incorrect :
    (∀ s : String, s ≠ "" → _get_status_for_result (.ofStr s) = "correct")
    ∧ _get_status_for_result (.ofStr "") = "pending"
    ∧ _get_status_for_result .noneV = "pending"
    ∧ (∀ a : StatusArg, _get_status_for_result a ≠ "incorrect") := by
  refine ⟨fun s hs => ?_, by decide, by decide, fun a => ?_⟩
  · simp [_get_status_for_result, statusArgTruthy, hs]
  · cases a with
    | ofBool b => cases b <;> decide
    | ofStr s =>
      by_cases hs : s = ""
      · subst hs; decide
      · simp [_get_status_for_result, statusArgTruthy, hs]
    | noneV => decide

/-- C9 witness: the grader status string `"incorrect"` itself is resolved
to the stored status `"correct"`. -/
theorem C9_status_helper_witness :
    "incorrect" ≠ "" ∧ _get_status_for_result (.ofStr "incorrect") = "correct" :=
  ⟨by decide, C9_status_helper_never_incorrect.1 "incorrect" (by decide)⟩

/-- C2: the claim says an AI-judged submission whose grader reported a
pending result (e.g. unparseable model output) is recorded with status
pending.  On the code it is false: the grading client does return
`status="pending"` for unparseable output, but the serializer feeds that
non-empty string through `_get_status_for_result`, whose truthiness branch
turns it into `"correct"`.  This theorem evaluates the full path at an
unparseable model output. -/
theorem C2_pending_result_recorded_correct :
    call_coach_llm "my approach" 10 2 unparsableGen = .ok (parseFailAnalyser 10)
    ∧ (parseFailAnalyser 10).status = "pending"
    ∧ (userProcedureRow (some "exact solution") (some 10) "my approach" 2 unparsableGen).status
        = "correct"
    ∧ "correct" ≠ "pending" :=
  ⟨rfl, rfl, rfl, by decide⟩

/-- C3: the claim says a practice actor's leaderboard contribution per
challenge is the maximum score among their status-correct submissions.
On the code it is false: the scope filter matches
`status__status__iexact="solved"`, a status string the submission paths
never write (they write `correct` / `pending`), so an actor whose
submissions on challenge 1 carry status `"correct"` and scores 3, 7, 2
contributes nothing at all — the totals are empty, not 7.  Had the rows
carried status `"solved"`, the pipeline would indeed credit the maximum
7 (not the sum 12, not the first 3). -/
theorem C3_leaderboard_drops_correct_status :
    _build_rows_totals "practice" none correctStatusRows [] = []
    ∧ _build_rows_totals "practice" none solvedStatusRows [] = [(1, 7)]
    ∧ leaderboard_list "practice" "" none correctStatusRows [] = .ok [] :=
  ⟨rfl, rfl, rfl⟩

/-- C4: the claim says trimmed-exact flag matches are recorded correct and
internal-whitespace or case mismatches are recorded incorrect.  On the
code the match direction holds (trimmed equality gives status `correct`
and the configured score) but a mismatch is recorded with status
`"pending"`, never `"incorrect"`: `_get_status_for_result(False)` falls
through its unreachable equality branch to `"pending"`. -/
theorem C4_flag_mismatch_recorded_pending :
    userFlagRow ["FLAG{x}"] (some 5) " FLAG{x} " = ⟨"flag", "correct", 5, "FLAG{x}"⟩
    ∧ (userFlagRow ["FLAG{x}"] (some 5) "flag{x}").status = "pending"
    ∧ (userFlagRow ["FLAG{x}"] (some 5) "flag{x}").score = 0
    ∧ (userFlagRow ["FLAG{x}"] (some 5) "FLAG {x}").status = "pending"
    ∧ "pending" ≠ "incorrect" :=
  ⟨rfl, rfl, rfl, rfl, by decide⟩

/-- Contest resolution rejects a competition challenge linked to a number
of contests other than one, with the matching data-integrity message. -/
theorem contest_integrity_error (qt : String) (l : List ContestRec) (now : Int)
    (hqt : qt = "competition") (hcnt : l.length ≠ 1) :
    _get_contest_for_challenge qt l now =
      .error (if l.isEmpty then "Competition challenge is not linked to any contest."
              else "Challenge is linked to multiple contests. Fix data integrity.") := by
  subst hqt
  unfold _get_contest_for_challenge
  rw [if_neg (by simp)]
  cases l with
  | nil => simp
  | cons a t =>
    cases t with
    | nil => simp at hcnt
    | cons b t2 => simp

/-- C5: a submission attempt on a competition challenge linked to zero or
to more than one contest fails with the data-integrity
`PermissionDenied`, on the user endpoint and on the group endpoint alike,
and — both `create` methods being `@transaction.atomic` and the contest
resolution preceding every write — zero submission rows are written
(`.error` carries no rows). -/
theorem C5_contest_integrity_aborts (ch : ChallengeData) (now : Int)
    (value content : Option String) (retries : Nat) (gen : Nat → GenAttempt)
    (hqt : ch.question_type = "competition") (hcnt : ch.linkedContests.length ≠ 1) :
    challenge_submission_create ch now value content retries gen =
      .error (if ch.linkedContests.isEmpty
              then "Competition challenge is not linked to any contest."
              else "Challenge is linked to multiple contests. Fix data integrity.")
    ∧ group_challenge_submission_create ch now value content retries gen =
      .error (if ch.linkedContests.isEmpty
              then "Competition challenge is not linked to any contest."
              else "Challenge is linked to multiple contests. Fix data integrity.") := by
  have hres := contest_integrity_error ch.question_type ch.linkedContests now hqt hcnt
  constructor
  · unfold challenge_submission_create
    rw [hres]
  · unfold group_challenge_submission_create
    rw [hres]

/-- C5 witness: a competition challenge linked to no contest is rejected
with zero rows written on both endpoints. -/
theorem C5_contest_integrity_aborts_witness :
    orphanCompetitionChallenge.question_type = "competition"
    ∧ orphanCompetitionChallenge.linkedContests.length ≠ 1
    ∧ (challenge_submission_create orphanCompetitionChallenge 0 (some "FLAG{x}") none 2 fatalGen =
        .error (if orphanCompetitionChallenge.linkedContests.isEmpty
                then "Competition challenge is not linked to any contest."
                else "Challenge is linked to multiple contests. Fix data integrity.")
      ∧ group_challenge_submission_create orphanCompetitionChallenge 0 (some "FLAG{x}") none 2
          fatalGen =
        .error (if orphanCompetitionChallenge.linkedContests.isEmpty
                then "Competition challenge is not linked to any contest."
                else "Challenge is linked to multiple contests. Fix data integrity.")) :=
  ⟨rfl, by decide,
    C5_contest_integrity_aborts orphanCompetitionChallenge 0 (some "FLAG{x}") none 2 fatalGen rfl
      (by decide)⟩

/-- C7 counterexample: the claim says a correct flag submission written by
the group endpoint scores `flag_score`, defaulting to 1 when unset.  With
`flag_score` unset the group endpoint records 0, not 1. -/
theorem C7_group_unset_flag_score_is_zero :
    groupFlagRow ["FLAG{x}"] none "FLAG{x}" = ⟨"flag", "correct", 0, "FLAG{x}"⟩
    ∧ (0 : Int) ≠ 1 :=
  ⟨rfl, by decide⟩

/-- C7 amended: on the user endpoint a correct flag submission scores
`flag_score` with falsy values (`None`/0) replaced by 1; on the group
endpoint it scores `flag_score` with a missing value replaced by 0; an
incorrect submission scores 0 on both.  The two endpoints agree exactly
when `flag_score` is set and non-zero. -/
theorem C7_amended_flag_scores (flags : List String) (fs : Option Int) (raw : String) :
    (∀ n : Int, fs = some n → n ≠ 0 → _check_flag_correct flags (pyStrip raw) = true →
        (userFlagRow flags fs raw).score = n ∧ (groupFlagRow flags fs raw).score = n)
    ∧ ((fs = none ∨ fs = some 0) → _check_flag_correct flags (pyStrip raw) = true →
        (userFlagRow flags fs raw).score = 1 ∧ (groupFlagRow flags fs raw).score = 0)
    ∧ (_check_flag_correct flags (pyStrip raw) = false →
        (userFlagRow flags fs raw).score = 0 ∧ (groupFlagRow flags fs raw).score = 0) := by
  refine ⟨?_, ?_, ?_⟩
  · intro n hfs hn hc
    subst hfs
    constructor
    · simp [userFlagRow, hc, hn]
    · simp [groupFlagRow, hc]
  · intro hfs hc
    rcases hfs with h | h <;> subst h <;>
      exact ⟨by simp [userFlagRow, hc], by simp [groupFlagRow, hc]⟩
  · intro hc
    exact ⟨by simp [userFlagRow, hc], by simp [groupFlagRow, hc]⟩

/-- C7 amended witness: with `flag_score = 5` and a matching flag, both
endpoints record 5. -/
theorem C7_amended_flag_scores_witness :
    (5 : Int) ≠ 0 ∧ _check_flag_correct ["FLAG{x}"] (pyStrip "FLAG{x}") = true
    ∧ ((userFlagRow ["FLAG{x}"] (some 5) "FLAG{x}").score = 5
       ∧ (groupFlagRow ["FLAG{x}"] (some 5) "FLAG{x}").score = 5) :=
  ⟨by decide, by decide,
    (C7_amended_flag_scores ["FLAG{x}"] (some 5) "FLAG{x}").1 5 rfl (by decide) (by decide)⟩

/-- C8: a competition-mode leaderboard request naming an existing contest
whose `publish_result` is false answers with the 403 error response —
never a 200 payload. -/
theorem C8_unpublished_contest_forbidden (mode contest_id : String) (c : ContestRec)
    (flagSubs textSubs : List LBSubRow)
    (hmode : pyLower (pyStrip mode) = "competition")
    (hcid : pyStrip contest_id ≠ "")
    (hpub : c.publish_result = false) :
    leaderboard_list mode contest_id (some c) flagSubs textSubs =
      .err "Results for this contest are not published yet." 403
    ∧ ∀ totals, leaderboard_list mode contest_id (some c) flagSubs textSubs ≠ .ok totals := by
  have hne : mode ≠ "" := by
    intro h
    subst h
    exact absurd hmode (by decide)
  have h1 : leaderboard_list mode contest_id (some c) flagSubs textSubs =
      .err "Results for this contest are not published yet." 403 := by
    unfold leaderboard_list
    rw [if_neg hne, hmode]
    rw [if_neg (by simp)]
    rw [if_pos rfl]
    rw [if_neg hcid]
    show (if ¬ c.publish_result = true
          then LBResponse.err "Results for this contest are not published yet." 403
          else LBResponse.ok (_build_rows_totals "competition" (some c.id) flagSubs textSubs)) =
        LBResponse.err "Results for this contest are not published yet." 403
    rw [if_pos (by simp [hpub])]
  exact ⟨h1, fun totals h => by rw [h1] at h; exact absurd h (by simp)⟩

/-- C8 witness: a concrete unpublished contest yields the 403 error. -/
theorem C8_unpublished_contest_forbidden_witness :
    pyLower (pyStrip "competition") = "competition" ∧ pyStrip "5" ≠ ""
    ∧ unpublishedContest.publish_result = false
    ∧ leaderboard_list "competition" "5" (some unpublishedContest) [] [] =
        .err "Results for this contest are not published yet." 403 :=
  ⟨by decide, by decide, rfl,
    (C8_unpublished_contest_forbidden "competition" "5" unpublishedContest [] [] (by decide)
      (by decide) rfl).1⟩

/-- C10: the submission endpoint routes a `group_only` challenge to the
group serializer, whose validation denies every attempt — whatever the
actor's membership or payload — when the challenge has no linked contest
with `group_only=True`; equivalently, such an attempt is accepted only if
at least one linked contest is group-only. -/
theorem C10_group_only_needs_group_contest (ch : ChallengeInfo)
    (hg : ch.group_only = true)
    (hno : ch.contests.any (fun co => co.group_only) = false) :
    ∀ membership value content,
      submission_endpoint_validate ch membership value content ≠ .ok () := by
  intro m v c h
  unfold submission_endpoint_validate at h
  rw [if_pos hg] at h
  unfold group_challenge_submission_validate at h
  by_cases hp : v.getD "" = "" ∧ c.getD "" = ""
  · rw [if_pos hp] at h
    exact absurd h (by simp)
  · rw [if_neg hp, if_pos (by simp [hno])] at h
    exact absurd h (by simp)

/-- C10 witness: a group-only flag challenge whose single linked contest
is not group-only is denied even for a user with group membership and a
well-formed payload. -/
theorem C10_group_only_needs_group_contest_witness :
    groupOnlyChallengeNoGroupContest.group_only = true
    ∧ groupOnlyChallengeNoGroupContest.contests.any (fun co => co.group_only) = false
    ∧ submission_endpoint_validate groupOnlyChallengeNoGroupContest (some 1) (some "FLAG{x}")
        none ≠ .ok () :=
  ⟨rfl, by decide,
    C10_group_only_needs_group_contest groupOnlyChallengeNoGroupContest rfl (by decide)
      (some 1) (some "FLAG{x}") none⟩

end CtfBe
